import Mathlib

/-!
# Ayaz17S/backend: the user and video controllers

A shallow embedding of `src/controllers/user.controller.js` and
`src/controllers/video.controller.js`.

Every handler is an `async` function that reads a request, talks to the document
database and to the media store, and either sends a response or throws.  Here a
handler is a function from the request and the state of the world to an outcome
(`Except Failure Response`) and the state of the world afterwards.  The world
holds the two collections, the media store and the trace of the writes and
media-store calls issued so far, in order.

What is outside the repository (the media store, the id validator, the schema
layer that builds documents, the aggregation engine) is a field of `Ext`.
-/

set_option autoImplicit false

namespace Backend

/-! ## JavaScript values -/

/-- What a handler can throw: an `ApiError` built by the handler itself, or one of
the two run-time errors the handlers can hit. -/
inductive Failure where
  | apiError (statusCode : Nat) (message : String)
  | typeError (message : String)
  | referenceError (message : String)
  deriving DecidableEq, Repr

/-- Modelled from the spec: the error normalisation layer (`utils/asyncHandler.js`
and `utils/apiError.js` are not part of the sources).  A thrown `ApiError`
keeps its status code; any unrecognised failure is coerced to HTTP 500. -/
def Failure.status : Failure → Nat
  | .apiError statusCode _ => statusCode
  | .typeError _ => 500
  | .referenceError _ => 500

/-- The code points that `String.prototype.trim` strips: ECMAScript WhiteSpace
(TAB, VT, FF, SP, NBSP, ZWNBSP and the Unicode space separators) and
LineTerminator (LF, CR, LS, PS). -/
def isWhiteSpace (c : Char) : Bool :=
  let n := c.toNat
  n == 0x9 || n == 0xA || n == 0xB || n == 0xC || n == 0xD || n == 0x20 ||
  n == 0xA0 || n == 0x1680 || (0x2000 ≤ n && n ≤ 0x200A) || n == 0x2028 ||
  n == 0x2029 || n == 0x202F || n == 0x205F || n == 0x3000 || n == 0xFEFF

/-- The JavaScript `s.trim()`: white space removed from both ends. -/
def trim (s : String) : String :=
  String.mk ((s.toList.dropWhile isWhiteSpace).reverse.dropWhile isWhiteSpace).reverse

/-- The JavaScript `s.toLowerCase()`, on ASCII letters. -/
def toLowerCase (s : String) : String :=
  String.mk (s.toList.map Char.toLower)

/-- The function-valued members of `String.prototype` that this development
implements.  The built-in lower-casing method is spelled `toLowerCase`; a string
has no member called `toLowercase`. -/
def stringPrototype : String → Option (String → String)
  | "trim" => some trim
  | "toLowerCase" => some toLowerCase
  | _ => none

/-- The method call `recv.name()` on a value that is `undefined` or a string:
reading a property of `undefined` throws, and so does calling a member that is
not a function. -/
def callStringMethod (recv : Option String) (name : String) : Except Failure String :=
  match recv with
  | none => .error (.typeError ("Cannot read properties of undefined (reading " ++ name ++ ")"))
  | some s =>
    match stringPrototype name with
    | none => .error (.typeError (name ++ " is not a function"))
    | some f => .ok (f s)

/-- ToBoolean of a value that is `undefined` or a string: only `undefined` and the
empty string are falsy. -/
def truthy : Option String → Bool
  | none => false
  | some s => s != ""

/-- A database query that has been built. `await q` runs it and yields `q.exec`;
without `await` the handler holds the query object itself. -/
structure Query (α : Type) where
  exec : α

/-- ToBoolean of a query that was not awaited: it is an object, and every object is
truthy, whatever the query would have found. -/
def Query.truthy {α : Type} (_ : Query α) : Bool := true

/-! ## Data model -/

/-- An uploaded file as the upload middleware stages it: only `path` is read. -/
structure File where
  path : String
  deriving DecidableEq, Repr

/-- Modelled from the spec: a user document (the schema `models/user.model.js` is not
part of the sources); the fields are those of the data model. -/
structure User where
  _id : String
  fullName : String
  username : String
  email : String
  password : String
  avatar : String
  coverImage : String
  refreshToken : Option String
  deriving DecidableEq, Repr

/-- A user document after `.select("-password -refreshToken")`. -/
structure SanitizedUser where
  _id : String
  fullName : String
  username : String
  email : String
  avatar : String
  coverImage : String
  deriving DecidableEq, Repr

/-- The projection `.select("-password -refreshToken")`. -/
def User.select (u : User) : SanitizedUser :=
  { _id := u._id, fullName := u.fullName, username := u.username, email := u.email,
    avatar := u.avatar, coverImage := u.coverImage }

/-- The object handed to `User.create`. -/
structure UserInput where
  fullName : Option String
  avatar : Option String
  coverImage : String
  email : Option String
  password : Option String
  username : String
  deriving DecidableEq, Repr

/-- Modelled from the spec: a video document (the schema `models/video.model.js` is
not part of the sources); the fields are those of the data model.  `owner` is the
owner id in its string form (`video.owner.toString()`); `duration` is carried through
uninterpreted. -/
structure Video where
  _id : String
  title : String
  description : String
  videoFile : String
  thumbnail : String
  duration : Option Nat
  owner : String
  isPublished : Bool
  deriving DecidableEq, Repr

/-- The object handed to `Video.create`. -/
structure VideoInput where
  title : Option String
  description : Option String
  videoFile : Option String
  thumbnail : Option String
  duration : Option Nat
  owner : String
  deriving DecidableEq, Repr

/-- The `$set` document of `findByIdAndUpdate`: the fields present are overwritten. -/
structure VideoPatch where
  title : Option String := none
  description : Option String := none
  thumbnail : Option String := none
  isPublished : Option Bool := none
  deriving DecidableEq, Repr

/-- Applying a `$set` document to a video. -/
def VideoPatch.apply (p : VideoPatch) (v : Video) : Video :=
  { v with
    title := p.title.getD v.title
    description := p.description.getD v.description
    thumbnail := p.thumbnail.getD v.thumbnail
    isPublished := p.isPublished.getD v.isPublished }

/-- The `createdBy` sub-document that the listing projects. -/
structure CreatedBy where
  fullName : String
  username : String
  avatar : String
  deriving DecidableEq, Repr

/-- One record of the listing after `$project`. -/
structure ListedVideo where
  _id : String
  thumbnail : String
  videoFile : String
  title : String
  description : String
  createdBy : CreatedBy
  deriving DecidableEq, Repr

/-- What the media store answers to an upload. -/
structure UploadResult where
  url : Option String
  duration : Option Nat
  deriving DecidableEq, Repr

/-- What the media store answers to a deletion. -/
structure DestroyResult where
  result : String
  deriving DecidableEq, Repr

/-- The stages of the `getAllVideos` pipeline that depend on the request.  The fixed
stages are: `$match` of `regex` (option `i`) on `title` or `description`, `$lookup`
of the owner in `users` as `createdBy`, `$unwind`, `$project`, `$sort` on `sortBy`,
`$skip`, `$limit`. -/
structure ListStages where
  regex : Option String
  sortBy : Option String
  sortDir : Int
  skip : Int
  limit : Int
  deriving DecidableEq, Repr

/-! ## The world -/

/-- A write to the database or a call to the media store. -/
inductive Call where
  | upload (localPath : Option String)
  | destroy (remoteRef : String)
  | userCreate
  | videoCreate
  | videoUpdate (videoId : String)
  | videoDelete (videoId : String)
  deriving DecidableEq, Repr

/-- The collaborators that are not part of the repository. `σ` is the state of the
media store. -/
structure Ext (σ : Type) where
  /-- `isValidObjectId` of the database driver -/
  isValidObjectId : String → Bool
  /-- the media store's upload; `none` is a `null` answer -/
  upload : σ → Option String → Option UploadResult × σ
  /-- the media store's deletion -/
  destroy : σ → String → DestroyResult × σ
  /-- the schema layer building a user document (id, defaults); `none` is a falsy answer -/
  newUser : Nat → UserInput → Option User
  /-- the schema layer building a video document (id, defaults); `none` is a falsy answer -/
  newVideo : Nat → VideoInput → Option Video
  /-- the aggregation engine -/
  aggregate : List Video → List User → ListStages → Except Failure (List ListedVideo)

/-- The state the handlers act on. `calls` is the trace of writes and media-store
calls, oldest first. -/
structure World (σ : Type) where
  users : List User
  videos : List Video
  media : σ
  nextId : Nat
  calls : List Call
  deriving DecidableEq

variable {σ : Type}

/-- The call `uploadOnCloudinary(localPath)`. -/
def uploadOnCloudinary (ext : Ext σ) (localPath : Option String) (w : World σ) :
    Option UploadResult × World σ :=
  ((ext.upload w.media localPath).1,
   { w with media := (ext.upload w.media localPath).2, calls := w.calls ++ [.upload localPath] })

/-- The call `deleteFromCloudinary(remoteRef)`. -/
def deleteFromCloudinary (ext : Ext σ) (remoteRef : String) (w : World σ) :
    DestroyResult × World σ :=
  ((ext.destroy w.media remoteRef).1,
   { w with media := (ext.destroy w.media remoteRef).2, calls := w.calls ++ [.destroy remoteRef] })

/-- The query `User.findOne({ $or: [{ username }, { email }] })`. -/
def User.findOne (users : List User) (username email : Option String) : Query (Option User) :=
  ⟨users.find? fun u => some u.username == username || some u.email == email⟩

/-- The query `User.findById(id).select("-password -refreshToken")`. -/
def User.findById (users : List User) (id : String) : Query (Option SanitizedUser) :=
  ⟨(users.find? fun u => u._id == id).map User.select⟩

/-- The call `await User.create(input)`. -/
def User.create (ext : Ext σ) (input : UserInput) (w : World σ) : Option User × World σ :=
  match ext.newUser w.nextId input with
  | none => (none, { w with calls := w.calls ++ [.userCreate] })
  | some u =>
    (some u, { w with users := w.users ++ [u], nextId := w.nextId + 1,
                      calls := w.calls ++ [.userCreate] })

/-- The query `Video.findById(videoId)`. -/
def Video.findById (videos : List Video) (videoId : String) : Query (Option Video) :=
  ⟨videos.find? fun v => v._id == videoId⟩

/-- The call `await Video.create(input)`. -/
def Video.create (ext : Ext σ) (input : VideoInput) (w : World σ) : Option Video × World σ :=
  match ext.newVideo w.nextId input with
  | none => (none, { w with calls := w.calls ++ [.videoCreate] })
  | some v =>
    (some v, { w with videos := w.videos ++ [v], nextId := w.nextId + 1,
                      calls := w.calls ++ [.videoCreate] })

/-- Rewrites the first document with the given id. -/
def updateFirst (videoId : String) (f : Video → Video) : List Video → List Video
  | [] => []
  | v :: vs => if v._id == videoId then f v :: vs else v :: updateFirst videoId f vs

/-- The call `await Video.findByIdAndUpdate(videoId, { $set: patch }, { new: true })`:
the answer is the document after the update, `null` when there is none. -/
def Video.findByIdAndUpdate (videoId : String) (patch : VideoPatch) (w : World σ) :
    Option Video × World σ :=
  (((Video.findById w.videos videoId).exec).map patch.apply,
   { w with videos := updateFirst videoId patch.apply w.videos,
            calls := w.calls ++ [.videoUpdate videoId] })

/-- The call `await Video.findByIdAndDelete(videoId)`. -/
def Video.findByIdAndDelete (videoId : String) (w : World σ) : World σ :=
  { w with videos := w.videos.eraseP (fun v => v._id == videoId),
           calls := w.calls ++ [.videoDelete videoId] }

/-! ## Requests and responses -/

/-- The `data` of a response envelope. -/
inductive Data where
  /-- the object `{}` -/
  | empty
  | null
  | video (v : Video)
  | videos (vs : List ListedVideo)
  | user (u : SanitizedUser)
  /-- any other value: a function, the request, a query field -/
  | other
  deriving DecidableEq, Repr

/-- Modelled from the spec: the success envelope (`utils/ApiResponse.js` is not part
of the sources), built by `new ApiResponse(statusCode, data, message)`.  Its
`success` flag is left out: nothing says how it is computed. -/
structure ApiResponse where
  statusCode : Nat
  data : Data
  message : String
  deriving DecidableEq, Repr

/-- The effect of `res.status(status).json(json)`. -/
structure Response where
  status : Nat
  json : ApiResponse
  deriving DecidableEq, Repr

/-- What a handler leaves behind: what it sent or threw, and the world afterwards. -/
abbrev Outcome (σ : Type) := Except Failure Response × World σ

/-- The `req.files` of a registration. -/
structure UserFiles where
  avatar : Option (List File)
  coverImage : Option (List File)
  deriving DecidableEq, Repr

/-- A registration request: the four body fields (absent, or a string) and the
uploaded files. -/
structure RegisterRequest where
  fullName : Option String
  username : Option String
  email : Option String
  password : Option String
  files : Option UserFiles
  deriving DecidableEq, Repr

/-- The `req.files` of a publication. -/
structure VideoFiles where
  videoFile : Option (List File)
  thumbnail : Option (List File)
  deriving DecidableEq, Repr

/-- A request to one of the video handlers: `req.params.videoId`, the body fields
`title` and `description`, `req.file`, `req.files`, and `req.user._id` in its string
form. -/
structure VideoRequest where
  videoId : String
  title : Option String
  description : Option String
  file : Option File
  files : Option VideoFiles
  user : String
  deriving DecidableEq, Repr

/-- The `req.query` of a listing; `page` and `limit` are absent or an integer
literal, given by its value. -/
structure ListRequest where
  page : Option Int
  limit : Option Int
  query : Option String
  sortBy : Option String
  sortType : Option String
  userId : Option String
  deriving DecidableEq, Repr

/-- The expression `files?.field[0]?.path`: an absent `files` short-circuits the whole
chain to `undefined`; a present `files` without the field throws on `[0]`; an empty
array gives `undefined`. -/
def firstPath {F : Type} (files : Option F) (field : F → Option (List File)) :
    Except Failure (Option String) :=
  match files with
  | none => .ok none
  | some fs =>
    match field fs with
    | none => .error (.typeError "Cannot read properties of undefined (reading 0)")
    | some arr => .ok (arr.head?.map File.path)

/-- Resolution of an identifier against the bindings in scope. -/
def resolve (scope : List (String × Data)) (name : String) : Except Failure Data :=
  match scope.lookup name with
  | some d => .ok d
  | none => .error (.referenceError (name ++ " is not defined"))

/-! ## user.controller.js -/

/-- The last statement of `registerUser`:
`res.status(201).json(new ApiResponse(200, createdUser, " User Registered successfully"))`. -/
def registerUserResponse (createdUser : SanitizedUser) : Response :=
  { status := 201
    json := { statusCode := 200, data := .user createdUser,
              message := " User Registered successfully" } }

/-- Lines 38 to 71 of `registerUser`: what follows the check on `existedUser`. -/
def registerUserFrom38 (ext : Ext σ) (req : RegisterRequest) (w : World σ) : Outcome σ :=
  match firstPath req.files UserFiles.avatar with
  | .error e => (.error e, w)
  | .ok avatarLocalPath =>
  match firstPath req.files UserFiles.coverImage with
  | .error e => (.error e, w)
  | .ok coverImageLocalPath =>
  if !truthy avatarLocalPath then
    (.error (.apiError 400 "avatar file is required"), w)
  else
  let up1 := uploadOnCloudinary ext avatarLocalPath w
  let up2 := uploadOnCloudinary ext coverImageLocalPath up1.2
  match up1.1 with
  | none => (.error (.apiError 400 "avatar file is required"), up2.2)
  | some avatar =>
  -- the argument of `User.create` is evaluated field by field, `username` last
  match callStringMethod req.username "toLowercase" with
  | .error e => (.error e, up2.2)
  | .ok username =>
  let created := User.create ext
    { fullName := req.fullName
      avatar := avatar.url
      coverImage := if truthy (up2.1.bind UploadResult.url) then (up2.1.bind UploadResult.url).getD "" else ""
      email := req.email
      password := req.password
      username := username } up2.2
  match created.1 with
  | none => (.error (.typeError "Cannot read properties of null (reading _id)"), created.2)
  | some user =>
  match (User.findById created.2.users user._id).exec with
  | none =>
    (.error (.apiError 500 "something went wrong while registering the user"), created.2)
  | some createdUser => (.ok (registerUserResponse createdUser), created.2)

/-- The handler `registerUser`. -/
def registerUser (ext : Ext σ) (req : RegisterRequest) (w : World σ) : Outcome σ :=
  if [req.fullName, req.username, req.email, req.password].any
      (fun field => field.map trim == some "") then
    (.error (.apiError 400 "all fields are required"), w)
  else
  -- no `await`: `existedUser` is the query, not its answer
  let existedUser := User.findOne w.users req.username req.email
  if existedUser.truthy then
    (.error (.apiError 409 "user with this email or username already exists"), w)
  else
  registerUserFrom38 ext req w

/-! ## video.controller.js -/

/-- The bindings in scope where `getAllVideos` builds its response: the six
destructured query fields, `video`, the parameters `req` and `res`, the imports and
the six handlers of the module. -/
def getAllVideosScope (video : List ListedVideo) : List (String × Data) :=
  [("page", .other), ("limit", .other), ("query", .other), ("sortBy", .other),
   ("sortType", .other), ("userId", .other), ("video", .videos video),
   ("req", .other), ("res", .other),
   ("mongoose", .other), ("isValidObjectId", .other), ("Video", .other), ("User", .other),
   ("ApiError", .other), ("ApiResponse", .other), ("asyncHandler", .other),
   ("uploadOnCloudinary", .other), ("deleteFromCloudinary", .other),
   ("getAllVideos", .other), ("publishAVideo", .other), ("getVideoById", .other),
   ("updateVideo", .other), ("deleteVideo", .other), ("togglePublishStatus", .other)]

/-- The pipeline that `getAllVideos` hands to `Video.aggregate`. -/
def getAllVideosStages (req : ListRequest) : ListStages :=
  { regex := req.query
    sortBy := req.sortBy
    sortDir := if req.sortType == some "asc" then 1 else -1
    skip := (req.page.getD 1 - 1) * req.limit.getD 10
    limit := req.limit.getD 10 }

/-- The handler `getAllVideos`. -/
def getAllVideos (ext : Ext σ) (req : ListRequest) (w : World σ) : Outcome σ :=
  match ext.aggregate w.videos w.users (getAllVideosStages req) with
  | .error e => (.error e, w)
  | .ok video =>
  match resolve (getAllVideosScope video) "videos" with
  | .error e => (.error e, w)
  | .ok videos =>
    (.ok { status := 200
           json := { statusCode := 200, data := videos, message := "Fetched all videos" } }, w)

/-- The handler `publishAVideo`. -/
def publishAVideo (ext : Ext σ) (req : VideoRequest) (w : World σ) : Outcome σ :=
  if !truthy req.title && !truthy req.description then
    (.error (.apiError 400 "All fields are required"), w)
  else
  match firstPath req.files VideoFiles.videoFile with
  | .error e => (.error e, w)
  | .ok videoFileLocalPath =>
  if !truthy videoFileLocalPath then
    (.error (.apiError 400 "No video file found"), w)
  else
  let up1 := uploadOnCloudinary ext videoFileLocalPath w
  match up1.1 with
  | none => (.error (.typeError "Cannot read properties of null (reading url)"), up1.2)
  | some videoFile =>
  if !truthy videoFile.url then
    (.error (.apiError 500 "Error while uploading video file"), up1.2)
  else
  match firstPath req.files VideoFiles.thumbnail with
  | .error e => (.error e, up1.2)
  | .ok thumbnailLocalPath =>
  if !truthy thumbnailLocalPath then
    (.error (.apiError 400 "No thumbnail file found"), up1.2)
  else
  let up2 := uploadOnCloudinary ext thumbnailLocalPath up1.2
  match up2.1 with
  | none => (.error (.typeError "Cannot read properties of null (reading url)"), up2.2)
  | some thumbnail =>
  if !truthy thumbnail.url then
    (.error (.apiError 500 "Error while uploading thumbnail"), up2.2)
  else
  let created := Video.create ext
    { title := req.title
      description := req.description
      videoFile := videoFile.url
      thumbnail := thumbnail.url
      duration := videoFile.duration
      owner := req.user } up2.2
  match created.1 with
  | none => (.error (.apiError 500 "Error while publishing hte video"), created.2)
  | some video =>
    (.ok { status := 200
           json := { statusCode := 200, data := .video video,
                     message := "Video file published" } }, created.2)

/-- The handler `getVideoById`. -/
def getVideoById (ext : Ext σ) (req : VideoRequest) (w : World σ) : Outcome σ :=
  if !ext.isValidObjectId req.videoId then
    (.error (.apiError 400 "Invalid video id"), w)
  else
  match (Video.findById w.videos req.videoId).exec with
  | none => (.error (.apiError 404 "No video found"), w)
  | some video =>
    (.ok { status := 200
           json := { statusCode := 200, data := .video video, message := "Video fetched" } }, w)

/-- The handler `updateVideo`. -/
def updateVideo (ext : Ext σ) (req : VideoRequest) (w : World σ) : Outcome σ :=
  let newThumbnailLocalPath := req.file.map File.path
  if !ext.isValidObjectId req.videoId then
    (.error (.apiError 400 "Invalid Video ID"), w)
  else
  match (Video.findById w.videos req.videoId).exec with
  | none => (.error (.apiError 404 "Video not found"), w)
  | some video =>
  if video.owner != req.user then
    (.error (.apiError 403 "You are not allowed to update this video"), w)
  else
  if !truthy req.title || !truthy req.description then
    (.error (.apiError 400 "Provide updated title and description"), w)
  else
  if !truthy newThumbnailLocalPath then
    (.error (.apiError 400 "Provide Thumbnail File"), w)
  else
  let del := deleteFromCloudinary ext video.thumbnail w
  if del.1.result != "ok" then
    (.error (.apiError 500 "Error while deleting old thumbnail from cloudinary"), del.2)
  else
  let up := uploadOnCloudinary ext newThumbnailLocalPath del.2
  match up.1 with
  | none => (.error (.typeError "Cannot read properties of null (reading url)"), up.2)
  | some newThumbnail =>
  if !truthy newThumbnail.url then
    (.error (.apiError 500 "Error while uploading new thumbnail"), up.2)
  else
  let updated := Video.findByIdAndUpdate req.videoId
    { title := req.title, description := req.description, thumbnail := newThumbnail.url } up.2
  (.ok { status := 200
         json := { statusCode := 200
                   data := match updated.1 with
                     | none => .null
                     | some updateVideo => .video updateVideo
                   message := "Video details updated" } }, updated.2)

/-- The handler `deleteVideo`.  `Promise.all` starts the deletion of the video file,
then that of the thumbnail, and waits for both answers. -/
def deleteVideo (ext : Ext σ) (req : VideoRequest) (w : World σ) : Outcome σ :=
  if !ext.isValidObjectId req.videoId then
    (.error (.apiError 400 "Invalid Video ID"), w)
  else
  match (Video.findById w.videos req.videoId).exec with
  | none => (.error (.apiError 404 "Video not found"), w)
  | some video =>
  if video.owner != req.user then
    (.error (.apiError 403 "You are not allowed to delete this video"), w)
  else
  let del1 := deleteFromCloudinary ext video.videoFile w
  let del2 := deleteFromCloudinary ext video.thumbnail del1.2
  if del1.1.result != "ok" || del2.1.result != "ok" then
    (.error (.apiError 500 "Error while deleting files from Cloudinary"), del2.2)
  else
  (.ok { status := 200
         json := { statusCode := 200, data := .empty,
                   message := "Video deleted successfully" } },
   Video.findByIdAndDelete req.videoId del2.2)

/-- The handler `togglePublishStatus`. -/
def togglePublishStatus (ext : Ext σ) (req : VideoRequest) (w : World σ) : Outcome σ :=
  if !ext.isValidObjectId req.videoId then
    (.error (.apiError 400 "Invalid Video ID"), w)
  else
  match (Video.findById w.videos req.videoId).exec with
  | none => (.error (.apiError 404 "Video not found"), w)
  | some video =>
  if video.owner != req.user then
    (.error (.apiError 403 "You are not allowed to delete this video"), w)
  else
  let updated := Video.findByIdAndUpdate req.videoId { isPublished := some (!video.isPublished) } w
  (.ok { status := 200
         json := { statusCode := 200
                   data := match updated.1 with
                     | none => .null
                     | some modifyVideoPublishStatus => .video modifyVideoPublishStatus
                   message := "Video publish status modified" } }, updated.2)

/-! ## A list-based aggregation engine and a small media store -/

/-- Case-insensitive substring test. -/
def containsIgnoreCase (s q : String) : Bool :=
  (toLowerCase s).toList.tails.any fun t => (toLowerCase q).toList.isPrefixOf t

/-- Lexicographic order on strings by code point, `a ≤ b`. -/
def leChars : List Char → List Char → Bool
  | [], _ => true
  | _ :: _, [] => false
  | a :: as, b :: bs => a.toNat < b.toNat || (a == b && leChars as bs)

/-- The value of the field `sortBy` in a projected record; a field that the
projection does not keep is missing. -/
def sortKey (sortBy : Option String) (d : ListedVideo) : Option String :=
  match sortBy with
  | some "_id" => some d._id
  | some "thumbnail" => some d.thumbnail
  | some "videoFile" => some d.videoFile
  | some "title" => some d.title
  | some "description" => some d.description
  | _ => none

/-- Order of two sort keys, `a ≤ b`; a missing field comes before any string. -/
def leKey : Option String → Option String → Bool
  | none, _ => true
  | some _, none => false
  | some a, some b => leChars a.toList b.toList

/-- Stable insertion of `a` into a list ordered by `le`. -/
def orderedInsert (le : ListedVideo → ListedVideo → Bool) (a : ListedVideo) :
    List ListedVideo → List ListedVideo
  | [] => [a]
  | b :: l => if le a b then a :: b :: l else b :: orderedInsert le a l

/-- The `$sort` stage. -/
def sortStage (sortBy : Option String) (sortDir : Int) (l : List ListedVideo) : List ListedVideo :=
  l.foldr (orderedInsert fun a b =>
    if sortDir = 1 then leKey (sortKey sortBy a) (sortKey sortBy b)
    else leKey (sortKey sortBy b) (sortKey sortBy a)) []

/-- The `$match`, `$lookup`, `$unwind` and `$project` stages: the videos whose title
or description contains the text, one record per owner found in `users`. -/
def matchedAndJoined (videos : List Video) (users : List User) (regex : Option String) :
    List ListedVideo :=
  (videos.filter fun v =>
      match regex with
      | none => true
      | some q => containsIgnoreCase v.title q || containsIgnoreCase v.description q).flatMap
    fun v => (users.filter fun u => u._id == v.owner).map fun u =>
      { _id := v._id, thumbnail := v.thumbnail, videoFile := v.videoFile, title := v.title,
        description := v.description,
        createdBy := { fullName := u.fullName, username := u.username, avatar := u.avatar } }

/-- Modelled from the spec: the aggregation engine of the document database, which
is not part of the repository, as filter, join, project, sort, skip, limit over a
list of videos; the text filter is a case-insensitive substring match and an absent
text is no filter. -/
def listAggregate (videos : List Video) (users : List User) (st : ListStages) :
    Except Failure (List ListedVideo) :=
  .ok (((sortStage st.sortBy st.sortDir (matchedAndJoined videos users st.regex)).drop
    st.skip.toNat).take st.limit.toNat)

/-- A media store that holds a list of asset references: an upload of a staged file
stores a new asset, a deletion answers `ok` when the asset was there. -/
def listStore : Ext (List String) where
  isValidObjectId := fun s => s.length == 24
  upload := fun m localPath =>
    match localPath with
    | none => (none, m)
    | some path => (some { url := some ("media://" ++ path), duration := some 0 },
                    m ++ ["media://" ++ path])
  destroy := fun m remoteRef =>
    if m.contains remoteRef then ({ result := "ok" }, m.erase remoteRef)
    else ({ result := "not found" }, m)
  newUser := fun n input =>
    some { _id := toString n, fullName := input.fullName.getD "", username := input.username,
           email := input.email.getD "", password := input.password.getD "",
           avatar := input.avatar.getD "", coverImage := input.coverImage,
           refreshToken := none }
  newVideo := fun n input =>
    some { _id := toString n, title := input.title.getD "",
           description := input.description.getD "", videoFile := input.videoFile.getD "",
           thumbnail := input.thumbnail.getD "", duration := input.duration,
           owner := input.owner, isPublished := true }
  aggregate := listAggregate

/-- A video of user `B`. -/
def videoOfB : Video :=
  { _id := "65a000000000000000000001", title := "cats", description := "a cat video",
    videoFile := "media://cats.mp4", thumbnail := "media://cats.png", duration := some 12,
    owner := "B", isPublished := true }

/-- A world with one video, owned by `B`, whose two assets are in the media store. -/
def worldOfB : World (List String) :=
  { users := [], videos := [videoOfB], media := ["media://cats.mp4", "media://cats.png"],
    nextId := 0, calls := [] }

/-- A world with no user and no video. -/
def emptyWorld : World (List String) :=
  { users := [], videos := [], media := [], nextId := 0, calls := [] }

/-- The update that `B` sends for the video of `B`: a title, a description and a new
thumbnail file. -/
def updateByB : VideoRequest :=
  { videoId := "65a000000000000000000001", title := some "kittens",
    description := some "a kitten video", file := some ⟨"tmp/kittens.png"⟩, files := none,
    user := "B" }

/-- The registration of Ann Lee, with an avatar file and a cover image. -/
def annLee : RegisterRequest :=
  { fullName := some "Ann Lee", username := some "annlee", email := some "a@x.com",
    password := some "secret",
    files := some { avatar := some [⟨"tmp/ann.png"⟩], coverImage := some [⟨"tmp/cover.png"⟩] } }

/-- The registration of Ann Lee with the field `fullName` left out of the body. -/
def annLeeWithoutFullName : RegisterRequest :=
  { annLee with fullName := none }

/-- A publication by `B` whose upload carries a thumbnail and no `videoFile` entry. -/
def publishWithoutVideoFile : VideoRequest :=
  { videoId := "", title := some "cats", description := some "a cat video", file := none,
    files := some { videoFile := none, thumbnail := some [⟨"tmp/cats.png"⟩] }, user := "B" }

/-- A publication by `B` whose upload carries a video file and no `thumbnail` entry. -/
def publishWithoutThumbnail : VideoRequest :=
  { videoId := "", title := some "cats", description := some "a cat video", file := none,
    files := some { videoFile := some [⟨"tmp/cats.mp4"⟩], thumbnail := none }, user := "B" }

/-- The listing request `?query=cat&page=2&limit=10`. -/
def secondPage : ListRequest :=
  { page := some 2, limit := some 10, query := some "cat", sortBy := none, sortType := none,
    userId := none }

/-- A request on the video of `B` by `user`, with nothing else in it. -/
def requestOn (user : String) : VideoRequest :=
  { videoId := "65a000000000000000000001", title := none, description := none, file := none,
    files := none, user := user }

/-! ## Lemmas on the collections -/

theorem find?_eraseP_id (videoId : String) (l : List Video)
    (hids : (l.map Video._id).Nodup) :
    (l.eraseP fun v => v._id == videoId).find? (fun v => v._id == videoId) = none := by
  induction l with
  | nil => rfl
  | cons a l ih =>
    simp only [List.map_cons, List.nodup_cons] at hids
    by_cases h : a._id = videoId
    · have hp : (a._id == videoId) = true := by simpa using h
      simp only [List.eraseP_cons, hp, cond_true, List.find?_eq_none]
      intro x hx hxid
      exact hids.1 (List.mem_map.2 ⟨x, hx, by rw [h]; simpa using hxid⟩)
    · have hp : (a._id == videoId) = false := by simpa using h
      simp only [List.eraseP_cons, hp, cond_false, List.find?_cons]
      exact ih hids.2

theorem find?_updateFirst (videoId : String) (f : Video → Video)
    (hf : ∀ v, (f v)._id = v._id) (l : List Video) :
    (updateFirst videoId f l).find? (fun v => v._id == videoId)
      = (l.find? fun v => v._id == videoId).map f := by
  induction l with
  | nil => rfl
  | cons a l ih =>
    by_cases h : a._id = videoId
    · simp [updateFirst, h, hf]
    · simp [updateFirst, h, ih]

theorem updateFirst_updateFirst (videoId : String) (f g : Video → Video) (video : Video)
    (hf : (f video)._id = video._id) (hgf : g (f video) = video) (l : List Video)
    (hfind : l.find? (fun v => v._id == videoId) = some video) :
    updateFirst videoId g (updateFirst videoId f l) = l := by
  induction l with
  | nil => simp at hfind
  | cons a l ih =>
    by_cases h : a._id = videoId
    · have ha : a = video := by simpa [List.find?_cons, h] using hfind
      subst ha
      simp [updateFirst, h, hf, hgf]
    · have hl : l.find? (fun v => v._id == videoId) = some video := by
        simpa [List.find?_cons, h] using hfind
      simp [updateFirst, h, ih hl]

theorem find?_updateFirst_other (videoId other : String) (f : Video → Video)
    (hf : ∀ v, (f v)._id = v._id) (hne : other ≠ videoId) (l : List Video) :
    (updateFirst videoId f l).find? (fun v => v._id == other)
      = l.find? fun v => v._id == other := by
  induction l with
  | nil => rfl
  | cons a l ih =>
    by_cases h : a._id = videoId
    · have ho : ¬ a._id = other := fun ho => hne (ho ▸ h)
      simp [updateFirst, h, hf, List.find?_cons, ho, hne.symm]
    · by_cases ho : a._id = other
      · simp [updateFirst, h, List.find?_cons, ho, hne]
      · simp [updateFirst, h, List.find?_cons, ho, ih]

theorem togglePublishStatus_eq (ext : Ext σ) (req : VideoRequest) (w : World σ)
    (video : Video)
    (hid : ext.isValidObjectId req.videoId = true)
    (hfind : w.videos.find? (fun v => v._id == req.videoId) = some video)
    (hown : video.owner = req.user) :
    togglePublishStatus ext req w
      = (.ok ⟨200, ⟨200,
            .video (VideoPatch.apply { isPublished := some (!video.isPublished) } video),
            "Video publish status modified"⟩⟩,
         { w with videos := updateFirst req.videoId
                    (VideoPatch.apply { isPublished := some (!video.isPublished) }) w.videos,
                  calls := w.calls ++ [.videoUpdate req.videoId] }) := by
  simp [togglePublishStatus, Video.findById, Video.findByIdAndUpdate, hid, hfind, hown]

/-! ## Ownership -/

/-- C1: for `updateVideo`, `deleteVideo` and `togglePublishStatus`, when the video id
is well-formed and names an existing video whose owner differs from the caller, the
handler throws an `ApiError` with status 403 and the world (the video collection, the
media store, the trace of writes and media-store calls) is the world before the call,
whatever else the request holds. -/
theorem nonOwner_forbidden (ext : Ext σ) (req : VideoRequest) (w : World σ) (video : Video)
    (hid : ext.isValidObjectId req.videoId = true)
    (hfind : (Video.findById w.videos req.videoId).exec = some video)
    (hown : video.owner ≠ req.user) :
    updateVideo ext req w
        = (.error (.apiError 403 "You are not allowed to update this video"), w) ∧
    deleteVideo ext req w
        = (.error (.apiError 403 "You are not allowed to delete this video"), w) ∧
    togglePublishStatus ext req w
        = (.error (.apiError 403 "You are not allowed to delete this video"), w) := by
  refine ⟨?_, ?_, ?_⟩
  · simp [updateVideo, hid, hfind, hown]
  · simp [deleteVideo, hid, hfind, hown]
  · simp [togglePublishStatus, hid, hfind, hown]

/-- C1, at a concrete input: user `A` on the video of `B`. -/
theorem nonOwner_forbidden_witness :
    updateVideo listStore (requestOn "A") worldOfB
        = (.error (.apiError 403 "You are not allowed to update this video"), worldOfB) ∧
    deleteVideo listStore (requestOn "A") worldOfB
        = (.error (.apiError 403 "You are not allowed to delete this video"), worldOfB) ∧
    togglePublishStatus listStore (requestOn "A") worldOfB
        = (.error (.apiError 403 "You are not allowed to delete this video"), worldOfB) :=
  nonOwner_forbidden listStore (requestOn "A") worldOfB videoOfB (by decide) (by decide)
    (by decide)

/-! ## Deletion -/

/-- C2: `deleteVideo` called by the owner of an existing video, in a collection whose
ids are distinct, with `r1` and `r2` the answers of the media store to the deletion of
the video file and of the thumbnail.  When both answers are `ok` the handler responds
200 with the payload `{}` and the record is gone; otherwise the handler throws an
`ApiError` with status 500 and the collection is as before, the record included; so
the record is removed exactly when both answers are `ok`. -/
theorem deleteVideo_by_owner (ext : Ext σ) (req : VideoRequest) (w : World σ) (video : Video)
    (r1 r2 : DestroyResult) (m1 m2 : σ)
    (hid : ext.isValidObjectId req.videoId = true)
    (hfind : (Video.findById w.videos req.videoId).exec = some video)
    (hown : video.owner = req.user)
    (hids : (w.videos.map Video._id).Nodup)
    (h1 : ext.destroy w.media video.videoFile = (r1, m1))
    (h2 : ext.destroy m1 video.thumbnail = (r2, m2)) :
    (r1.result = "ok" ∧ r2.result = "ok" →
      (deleteVideo ext req w).1
          = .ok ⟨200, ⟨200, .empty, "Video deleted successfully"⟩⟩ ∧
      (deleteVideo ext req w).2.videos = w.videos.eraseP (fun v => v._id == req.videoId) ∧
      (Video.findById (deleteVideo ext req w).2.videos req.videoId).exec = none) ∧
    (¬ (r1.result = "ok" ∧ r2.result = "ok") →
      (deleteVideo ext req w).1
          = .error (.apiError 500 "Error while deleting files from Cloudinary") ∧
      (deleteVideo ext req w).2.videos = w.videos ∧
      (Video.findById (deleteVideo ext req w).2.videos req.videoId).exec = some video) ∧
    ((Video.findById (deleteVideo ext req w).2.videos req.videoId).exec = none ↔
      r1.result = "ok" ∧ r2.result = "ok") ∧
    (deleteVideo ext req w).2.media = m2 := by
  have hgone := find?_eraseP_id req.videoId w.videos hids
  simp only [Video.findById] at hfind ⊢
  by_cases hok : r1.result = "ok" ∧ r2.result = "ok"
  · simp [deleteVideo, Video.findById, Video.findByIdAndDelete, deleteFromCloudinary, hid,
      hfind, hown, h1, h2, hok, hgone]
  · have hbad : (r1.result != "ok" || r2.result != "ok") = true := by
      by_cases ha : r1.result = "ok"
      · have hb : ¬ r2.result = "ok" := fun hb => hok ⟨ha, hb⟩
        simp [ha, hb]
      · simp [ha]
    simp [deleteVideo, Video.findById, deleteFromCloudinary, hid, hfind, hown, h1, h2, hok,
      hbad]

/-- C2, at a concrete input: `B` deletes the video of `B`. -/
theorem deleteVideo_by_owner_witness :
    (deleteVideo listStore (requestOn "B") worldOfB).1
        = .ok ⟨200, ⟨200, .empty, "Video deleted successfully"⟩⟩ ∧
    (deleteVideo listStore (requestOn "B") worldOfB).2.videos = [] ∧
    (deleteVideo listStore (requestOn "B") worldOfB).2.media = [] :=
  have h := deleteVideo_by_owner listStore (requestOn "B") worldOfB videoOfB
    ⟨"ok"⟩ ⟨"ok"⟩ ["media://cats.png"] [] (by decide) (by decide) (by decide) (by decide)
    (by decide) (by decide)
  ⟨(h.1 ⟨rfl, rfl⟩).1, (h.1 ⟨rfl, rfl⟩).2.1, h.2.2.2⟩

/-! ## Publish flag -/

/-- C7: `togglePublishStatus` called by the owner of an existing video responds 200
with the record after the update, which is the stored record with `isPublished`
negated and every other field as it was; the other videos, the users and the media
store are untouched; a second call in sequence responds with the original record and
leaves the collection as it was before the first call. -/
theorem togglePublishStatus_by_owner (ext : Ext σ) (req : VideoRequest) (w : World σ)
    (video : Video)
    (hid : ext.isValidObjectId req.videoId = true)
    (hfind : (Video.findById w.videos req.videoId).exec = some video)
    (hown : video.owner = req.user) :
    (togglePublishStatus ext req w).1
        = .ok ⟨200, ⟨200, .video { video with isPublished := !video.isPublished },
            "Video publish status modified"⟩⟩ ∧
    (Video.findById (togglePublishStatus ext req w).2.videos req.videoId).exec
        = some { video with isPublished := !video.isPublished } ∧
    (∀ other, other ≠ req.videoId →
      (Video.findById (togglePublishStatus ext req w).2.videos other).exec
        = (Video.findById w.videos other).exec) ∧
    (togglePublishStatus ext req w).2.users = w.users ∧
    (togglePublishStatus ext req w).2.media = w.media ∧
    (togglePublishStatus ext req (togglePublishStatus ext req w).2).1
        = .ok ⟨200, ⟨200, .video video, "Video publish status modified"⟩⟩ ∧
    (togglePublishStatus ext req (togglePublishStatus ext req w).2).2.videos = w.videos := by
  simp only [Video.findById] at hfind ⊢
  have hkeep : ∀ (p : VideoPatch) (v : Video), (p.apply v)._id = v._id := fun _ _ => rfl
  have hback : (VideoPatch.apply { isPublished := some (!(!video.isPublished)) }
      { video with isPublished := !video.isPublished }) = video := by
    cases video; simp [VideoPatch.apply]
  have hfirst := togglePublishStatus_eq ext req w video hid hfind hown
  have hfind2 : (updateFirst req.videoId
      (VideoPatch.apply { isPublished := some (!video.isPublished) }) w.videos).find?
        (fun v => v._id == req.videoId)
      = some { video with isPublished := !video.isPublished } := by
    rw [find?_updateFirst _ _ (hkeep _), hfind]; rfl
  have hsecond := togglePublishStatus_eq ext req (togglePublishStatus ext req w).2
    { video with isPublished := !video.isPublished } hid (by rw [hfirst]; exact hfind2) hown
  rw [hback] at hsecond
  refine ⟨by rw [hfirst]; rfl, ?_, ?_, by rw [hfirst], by rw [hfirst], by rw [hsecond], ?_⟩
  · rw [hfirst]; exact hfind2
  · intro other hne
    rw [hfirst]
    exact find?_updateFirst_other _ _ _ (hkeep _) hne _
  · rw [hsecond, hfirst]
    exact updateFirst_updateFirst _ _ _ video (hkeep _ _) hback _ hfind

/-- C7, at a concrete input: `B` toggles the video of `B` twice. -/
theorem togglePublishStatus_by_owner_witness :
    (togglePublishStatus listStore (requestOn "B") worldOfB).1
        = .ok ⟨200, ⟨200, .video { videoOfB with isPublished := false },
            "Video publish status modified"⟩⟩ ∧
    (togglePublishStatus listStore (requestOn "B")
        (togglePublishStatus listStore (requestOn "B") worldOfB).2).2.videos = [videoOfB] :=
  have h := togglePublishStatus_by_owner listStore (requestOn "B") worldOfB videoOfB
    (by decide) (by decide) (by decide)
  ⟨h.1, h.2.2.2.2.2.2⟩

/-! ## Update -/

/-- C10: `updateVideo` called by the owner of an existing video with a non-empty
title, a non-empty description and a new thumbnail file, with `r` the answer of the
media store to the deletion of the old thumbnail and `up` its answer to the upload
of the new one, the upload being issued in the state `m1` that the deletion leaves.
When `r.result` is not `ok` the handler throws with status 500, the only call made is
the deletion and the collection is as before.  When the deletion is `ok` and the
upload gives no URL the handler throws with status 500 after the deletion and the
upload, and the collection is as before.  Otherwise the handler responds 200 with the
record after the update, which is the stored record with `title`, `description` and
`thumbnail` set to the new values and every other field, `owner` included, as it was;
the trace is the deletion, then the upload, then the update. -/
theorem updateVideo_by_owner (ext : Ext σ) (req : VideoRequest) (w : World σ) (video : Video)
    (title description path : String) (r : DestroyResult) (m1 m2 : σ)
    (up : Option UploadResult)
    (hid : ext.isValidObjectId req.videoId = true)
    (hfind : (Video.findById w.videos req.videoId).exec = some video)
    (hown : video.owner = req.user)
    (htitle : req.title = some title) (ht : title ≠ "")
    (hdesc : req.description = some description) (hd : description ≠ "")
    (hfile : req.file = some ⟨path⟩) (hp : path ≠ "")
    (h1 : ext.destroy w.media video.thumbnail = (r, m1))
    (h2 : ext.upload m1 (some path) = (up, m2)) :
    (r.result ≠ "ok" →
      updateVideo ext req w
        = (.error (.apiError 500 "Error while deleting old thumbnail from cloudinary"),
           { w with media := m1, calls := w.calls ++ [.destroy video.thumbnail] })) ∧
    (r.result = "ok" → truthy (up.bind UploadResult.url) = false →
      (∃ e, (updateVideo ext req w).1 = .error e ∧ e.status = 500) ∧
      (updateVideo ext req w).2
        = { w with media := m2,
                   calls := w.calls ++ [.destroy video.thumbnail, .upload (some path)] }) ∧
    (∀ url, r.result = "ok" → up.bind UploadResult.url = some url → url ≠ "" →
      updateVideo ext req w
        = (.ok ⟨200, ⟨200,
              .video { video with title := title, description := description,
                                  thumbnail := url },
              "Video details updated"⟩⟩,
           { w with
             videos := updateFirst req.videoId
               (VideoPatch.apply { title := some title, description := some description,
                                   thumbnail := some url }) w.videos
             media := m2
             calls := w.calls ++ [.destroy video.thumbnail, .upload (some path),
                                  .videoUpdate req.videoId] }) ∧
      (Video.findById (updateVideo ext req w).2.videos req.videoId).exec
        = some { video with title := title, description := description, thumbnail := url } ∧
      ∀ other, other ≠ req.videoId →
        (Video.findById (updateVideo ext req w).2.videos other).exec
          = (Video.findById w.videos other).exec) := by
  simp only [Video.findById] at hfind ⊢
  have hkeep : ∀ (p : VideoPatch) (v : Video), (p.apply v)._id = v._id := fun _ _ => rfl
  have htt : truthy (some title) = true := by simp [truthy, ht]
  have htd : truthy (some description) = true := by simp [truthy, hd]
  have htp : truthy (some path) = true := by simp [truthy, hp]
  refine ⟨?_, ?_, ?_⟩
  · intro hr
    simp [updateVideo, Video.findById, deleteFromCloudinary, hid, hfind, hown, htitle,
      hdesc, hfile, htt, htd, htp, h1, hr]
  · intro hr hno
    cases up with
    | none =>
      simp [updateVideo, Video.findById, deleteFromCloudinary, uploadOnCloudinary,
        Failure.status, hid, hfind, hown, htitle, hdesc, hfile, htt, htd, htp, h1, h2, hr]
    | some u =>
      have hu : truthy u.url = false := by simpa using hno
      simp [updateVideo, Video.findById, deleteFromCloudinary, uploadOnCloudinary,
        Failure.status, hid, hfind, hown, htitle, hdesc, hfile, htt, htd, htp, h1, h2, hr, hu]
  · intro url hr hurl hne
    cases up with
    | none => simp at hurl
    | some u =>
      have hu : u.url = some url := by simpa using hurl
      have htu : truthy (some url) = true := by simp [truthy, hne]
      have hout : updateVideo ext req w
          = (.ok ⟨200, ⟨200,
                .video { video with title := title, description := description,
                                    thumbnail := url },
                "Video details updated"⟩⟩,
             { w with
               videos := updateFirst req.videoId
                 (VideoPatch.apply { title := some title, description := some description,
                                     thumbnail := some url }) w.videos
               media := m2
               calls := w.calls ++ [.destroy video.thumbnail, .upload (some path),
                                    .videoUpdate req.videoId] }) := by
        simp [updateVideo, Video.findById, Video.findByIdAndUpdate, deleteFromCloudinary,
          uploadOnCloudinary, VideoPatch.apply, hid, hfind, hown, htitle, hdesc,
          hfile, htt, htd, htp, h1, h2, hr, hu, htu]
      refine ⟨hout, ?_, ?_⟩
      · rw [hout]
        show (updateFirst _ _ w.videos).find? _ = _
        rw [find?_updateFirst _ _ (hkeep _), hfind]; rfl
      · intro other hother
        rw [hout]
        exact find?_updateFirst_other _ _ _ (hkeep _) hother _

/-- C10, at a concrete input: `B` updates the video of `B`; the media store answers
`ok` to the deletion and gives a URL for the new thumbnail. -/
theorem updateVideo_by_owner_witness :
    updateVideo listStore updateByB worldOfB
      = (.ok ⟨200, ⟨200,
            .video { videoOfB with title := "kittens", description := "a kitten video",
                                   thumbnail := "media://tmp/kittens.png" },
            "Video details updated"⟩⟩,
         { worldOfB with
           videos := [{ videoOfB with title := "kittens", description := "a kitten video",
                                      thumbnail := "media://tmp/kittens.png" }]
           media := ["media://cats.mp4", "media://tmp/kittens.png"]
           calls := [.destroy "media://cats.png", .upload (some "tmp/kittens.png"),
                     .videoUpdate "65a000000000000000000001"] }) :=
  ((updateVideo_by_owner listStore updateByB worldOfB videoOfB "kittens" "a kitten video"
    "tmp/kittens.png" ⟨"ok"⟩ ["media://cats.mp4"] ["media://cats.mp4", "media://tmp/kittens.png"]
    (some ⟨some "media://tmp/kittens.png", some 0⟩)
    (by decide) (by decide) (by decide) rfl (by decide) rfl (by decide) rfl (by decide)
    (by decide) (by decide)).2.2 "media://tmp/kittens.png" rfl rfl (by decide)).1

/-! ## Registration -/

theorem callStringMethod_toLowercase (recv : Option String) :
    ∃ e, callStringMethod recv "toLowercase" = .error e := by
  cases recv with
  | none => exact ⟨_, rfl⟩
  | some s => exact ⟨_, rfl⟩

/-- Whatever the request and the world, `registerUser` throws and leaves the users
as they were: 400 when a field that is present trims to the empty string, 409
otherwise. -/
theorem registerUser_eq (ext : Ext σ) (req : RegisterRequest) (w : World σ) :
    registerUser ext req w
      = if [req.fullName, req.username, req.email, req.password].any
            (fun field => field.map trim == some "") then
          (.error (.apiError 400 "all fields are required"), w)
        else (.error (.apiError 409 "user with this email or username already exists"), w) := by
  simp [registerUser, Query.truthy]

/-- Whatever the request and the world, what follows the check on `existedUser`
throws as well, and creates no user. -/
theorem registerUserFrom38_throws (ext : Ext σ) (req : RegisterRequest) (w : World σ) :
    ∃ e, (registerUserFrom38 ext req w).1 = .error e ∧
      (registerUserFrom38 ext req w).2.users = w.users := by
  obtain ⟨e, he⟩ := callStringMethod_toLowercase req.username
  unfold registerUserFrom38
  split
  · exact ⟨_, rfl, rfl⟩
  · split
    · exact ⟨_, rfl, rfl⟩
    · split
      · exact ⟨_, rfl, rfl⟩
      · simp only []
        split
        · exact ⟨_, rfl, rfl⟩
        · rw [he]
          exact ⟨_, rfl, rfl⟩

/-- C3, where the code departs from it: with `fullName` absent and the other three
fields filled in, the check on blank fields lets the request through (the optional
call `field?.trim()` of an absent field is `undefined`, which is not `""`), and the
handler throws 409, not 400.  No write and no upload is made. -/
theorem registerUser_absent_field (ext : Ext σ) (w : World σ) :
    registerUser ext annLeeWithoutFullName w
      = (.error (.apiError 409 "user with this email or username already exists"), w) ∧
    (Failure.apiError 409 "user with this email or username already exists").status = 409 := by
  refine ⟨?_, rfl⟩
  rw [registerUser_eq]
  exact if_neg (by decide)

/-- C4, where the code departs from it: the first registration of Ann Lee in a
world with no user throws 409 and creates no user, because `existedUser` is the
query that was never awaited. -/
theorem registerUser_first_call :
    registerUser listStore annLee emptyWorld
      = (.error (.apiError 409 "user with this email or username already exists"),
         emptyWorld) ∧
    (User.findOne emptyWorld.users annLee.username annLee.email).exec = none ∧
    (registerUser listStore annLee emptyWorld).2.users = [] := by
  have h : registerUser listStore annLee emptyWorld
      = (.error (.apiError 409 "user with this email or username already exists"),
         emptyWorld) := by
    rw [registerUser_eq]
    exact if_neg (by decide)
  exact ⟨h, rfl, by rw [h]; rfl⟩

/-- C5, where the code departs from it: the registration of Ann Lee does not respond
201 but throws 409; and no request at all gets a response from `registerUser`, for
what follows the check on `existedUser` throws too (the call `username.toLowercase()`
is a call of a member that strings do not have). -/
theorem registerUser_never_responds :
    (registerUser listStore annLee emptyWorld).1
      = .error (.apiError 409 "user with this email or username already exists") ∧
    (∀ (τ : Type) (ext : Ext τ) (req : RegisterRequest) (w : World τ),
      (∃ e, registerUser ext req w = (.error e, w)) ∧
      ∃ e, (registerUserFrom38 ext req w).1 = .error e) := by
  refine ⟨?_, fun τ ext req w => ⟨?_, ?_⟩⟩
  · rw [registerUser_eq]
    exact congrArg Prod.fst (if_neg (by decide))
  · rw [registerUser_eq]
    split
    · exact ⟨_, rfl⟩
    · exact ⟨_, rfl⟩
  · obtain ⟨e, he, _⟩ := registerUserFrom38_throws ext req w
    exact ⟨e, he⟩

/-- The response statement of `registerUser`, which no request reaches, carries the
HTTP status 201 and an envelope whose `statusCode` is 200. -/
theorem registerUserResponse_status (createdUser : SanitizedUser) :
    (registerUserResponse createdUser).status = 201 ∧
    (registerUserResponse createdUser).json.statusCode = 200 :=
  ⟨rfl, rfl⟩

/-- A field that is present and trims to the empty string makes `registerUser` throw
400, with no write and no upload. -/
theorem registerUser_blank_field (ext : Ext σ) (req : RegisterRequest) (w : World σ)
    (field : String) (hblank : trim field = "")
    (hfield : req.fullName = some field ∨ req.username = some field ∨
      req.email = some field ∨ req.password = some field) :
    registerUser ext req w = (.error (.apiError 400 "all fields are required"), w) := by
  rw [registerUser_eq]
  apply if_pos
  rcases hfield with h | h | h | h <;> simp [h, hblank]

/-! ## Publication -/

/-- C6, where the code departs from it.  When `req.files` is there and has no
`videoFile` entry, `req.files?.videoFile[0]` throws a `TypeError`, which is answered
with 500 and not 400, before anything is uploaded.  When the video file is there and
`req.files` has no `thumbnail` entry, the video file is uploaded first and
`req.files?.thumbnail[0]` then throws a `TypeError`, again 500.  No video record is
created in either case. -/
theorem publishAVideo_missing_entry (ext : Ext σ) (w : World σ) :
    publishAVideo ext publishWithoutVideoFile w
      = (.error (.typeError "Cannot read properties of undefined (reading 0)"), w) ∧
    (Failure.typeError "Cannot read properties of undefined (reading 0)").status = 500 ∧
    (∃ e, (publishAVideo ext publishWithoutThumbnail w).1 = .error e ∧ e.status = 500) ∧
    (publishAVideo ext publishWithoutThumbnail w).2.videos = w.videos ∧
    (publishAVideo ext publishWithoutThumbnail w).2.calls
      = w.calls ++ [.upload (some "tmp/cats.mp4")] := by
  refine ⟨rfl, rfl, ?_⟩
  have htitle : truthy publishWithoutThumbnail.title = true := by decide
  have hpath : firstPath publishWithoutThumbnail.files VideoFiles.videoFile
      = .ok (some "tmp/cats.mp4") := rfl
  have hthumb : firstPath publishWithoutThumbnail.files VideoFiles.thumbnail
      = .error (.typeError "Cannot read properties of undefined (reading 0)") := rfl
  have hp : truthy (some "tmp/cats.mp4") = true := by decide
  unfold publishAVideo
  simp only [htitle, hpath, hp, hthumb, Bool.not_true, Bool.false_and, Bool.false_eq_true,
    if_false]
  cases hup : (uploadOnCloudinary ext (some "tmp/cats.mp4") w).1 with
  | none => exact ⟨⟨_, rfl, rfl⟩, rfl, rfl⟩
  | some videoFile =>
    by_cases hurl : truthy videoFile.url = true
    · simp only [hurl, Bool.not_true, Bool.false_eq_true, if_false]
      exact ⟨⟨_, rfl, rfl⟩, rfl, rfl⟩
    · simp only [hurl, Bool.not_false, if_true]
      exact ⟨⟨_, rfl, rfl⟩, rfl, rfl⟩

/-- When the chain `req.files?.videoFile[0]?.path` gives `undefined` (no `req.files`
at all, or an empty `videoFile` array) and a title or a description is given,
`publishAVideo` throws 400 and the world is as before. -/
theorem publishAVideo_no_video_path (ext : Ext σ) (req : VideoRequest) (w : World σ)
    (hpath : firstPath req.files VideoFiles.videoFile = .ok none)
    (hfield : truthy req.title = true ∨ truthy req.description = true) :
    publishAVideo ext req w = (.error (.apiError 400 "No video file found"), w) := by
  have hnot : (!truthy req.title && !truthy req.description) = false := by
    rcases hfield with h | h <;> simp [h]
  have hnone : truthy none = false := rfl
  simp only [publishAVideo, hpath, hnot, hnone, Bool.false_eq_true, if_false,
    Bool.not_false, if_true]

/-! ## Listing -/

/-- The list-based engine, on the pipeline of `getAllVideos`, answers the sorted
matching-and-joined records from index `(page - 1) * limit` on, `limit` of them at
most. -/
theorem listAggregate_page (videos : List Video) (users : List User) (req : ListRequest) :
    listAggregate videos users (getAllVideosStages req)
      = .ok (((sortStage req.sortBy (if req.sortType == some "asc" then 1 else -1)
          (matchedAndJoined videos users req.query)).drop
            ((req.page.getD 1 - 1) * req.limit.getD 10).toNat).take (req.limit.getD 10).toNat) :=
  rfl

/-- C8, where the code departs from it: the answer of the aggregation is bound to
`video`, and the response is built from `videos`, which nothing binds; so the second
page of ten, like every other listing, throws a `ReferenceError` (or what the
aggregation threw) and no response is sent. -/
theorem getAllVideos_throws :
    getAllVideos listStore secondPage worldOfB
      = (.error (.referenceError "videos is not defined"), worldOfB) ∧
    (∀ (τ : Type) (ext : Ext τ) (req : ListRequest) (w : World τ),
      ∃ e, getAllVideos ext req w = (.error e, w)) := by
  refine ⟨rfl, fun τ ext req w => ?_⟩
  unfold getAllVideos
  cases ext.aggregate w.videos w.users (getAllVideosStages req) with
  | error e => exact ⟨e, rfl⟩
  | ok video => exact ⟨_, rfl⟩

/-! ## Envelope -/

/-- Each of the five handlers on one video either throws or responds with the status
200 both as HTTP status and in the envelope. -/
theorem video_response_status (ext : Ext σ) (req : VideoRequest) (w : World σ) :
    ((∃ e, (publishAVideo ext req w).1 = .error e) ∨
      ∃ data message, (publishAVideo ext req w).1 = .ok ⟨200, ⟨200, data, message⟩⟩) ∧
    ((∃ e, (getVideoById ext req w).1 = .error e) ∨
      ∃ data message, (getVideoById ext req w).1 = .ok ⟨200, ⟨200, data, message⟩⟩) ∧
    ((∃ e, (updateVideo ext req w).1 = .error e) ∨
      ∃ data message, (updateVideo ext req w).1 = .ok ⟨200, ⟨200, data, message⟩⟩) ∧
    ((∃ e, (deleteVideo ext req w).1 = .error e) ∨
      ∃ data message, (deleteVideo ext req w).1 = .ok ⟨200, ⟨200, data, message⟩⟩) ∧
    ((∃ e, (togglePublishStatus ext req w).1 = .error e) ∨
      ∃ data message, (togglePublishStatus ext req w).1 = .ok ⟨200, ⟨200, data, message⟩⟩) := by
  refine ⟨?_, ?_, ?_, ?_, ?_⟩
  · unfold publishAVideo
    try dsimp only
    repeat' split
    all_goals simp
  · unfold getVideoById
    try dsimp only
    repeat' split
    all_goals simp
  · unfold updateVideo
    try dsimp only
    repeat' split
    all_goals simp
  · unfold deleteVideo
    try dsimp only
    repeat' split
    all_goals simp
  · unfold togglePublishStatus
    try dsimp only
    repeat' split
    all_goals simp

/-- C9: whenever one of the seven handlers (`registerUser`, `getAllVideos`,
`publishAVideo`, `getVideoById`, `updateVideo`, `deleteVideo`, `togglePublishStatus`)
sends a response, the `statusCode` inside the envelope equals the HTTP status set on
the response.  The five handlers on one video respond with 200 in both places;
`registerUser` and `getAllVideos` throw on every request and send no response. -/
theorem success_status_mirrored (ext : Ext σ) (registration : RegisterRequest)
    (listing : ListRequest) (req : VideoRequest) (w : World σ) (resp : Response)
    (hresp : (registerUser ext registration w).1 = .ok resp ∨
      (getAllVideos ext listing w).1 = .ok resp ∨
      (publishAVideo ext req w).1 = .ok resp ∨ (getVideoById ext req w).1 = .ok resp ∨
      (updateVideo ext req w).1 = .ok resp ∨ (deleteVideo ext req w).1 = .ok resp ∨
      (togglePublishStatus ext req w).1 = .ok resp) :
    resp.status = resp.json.statusCode := by
  have hvideo : ∀ out : Except Failure Response,
      ((∃ e, out = .error e) ∨ ∃ data message, out = .ok ⟨200, ⟨200, data, message⟩⟩) →
      out = .ok resp → resp.status = resp.json.statusCode := by
    intro out hout h
    rcases hout with ⟨e, he⟩ | ⟨data, message, hok⟩
    · rw [he] at h; cases h
    · rw [hok] at h
      injection h with h
      subst h
      rfl
  obtain ⟨hpub, hget, hupd, hdel, htog⟩ := video_response_status ext req w
  rcases hresp with h | h | h | h | h | h | h
  · rw [registerUser_eq] at h
    split at h <;> cases h
  · unfold getAllVideos at h
    cases hagg : ext.aggregate w.videos w.users (getAllVideosStages listing) with
    | error e => rw [hagg] at h; cases h
    | ok video => rw [hagg] at h; cases h
  · exact hvideo _ hpub h
  · exact hvideo _ hget h
  · exact hvideo _ hupd h
  · exact hvideo _ hdel h
  · exact hvideo _ htog h

/-- C9, at a concrete input: `getVideoById` answers `A` with the video of `B`. -/
theorem success_status_mirrored_witness :
    (getVideoById listStore (requestOn "A") worldOfB).1
        = .ok ⟨200, ⟨200, .video videoOfB, "Video fetched"⟩⟩ ∧
    (⟨200, ⟨200, .video videoOfB, "Video fetched"⟩⟩ : Response).status
        = (⟨200, ⟨200, .video videoOfB, "Video fetched"⟩⟩ : Response).json.statusCode :=
  ⟨rfl, success_status_mirrored listStore annLee secondPage (requestOn "A") worldOfB
    ⟨200, ⟨200, .video videoOfB, "Video fetched"⟩⟩ (Or.inr (Or.inr (Or.inr (Or.inl rfl))))⟩

end Backend
